import Mathlib

/-!
Lean model of the conversation orchestration core of a Cloudflare Workers
chat backend (`src/index.ts`): the per-session message log (`ChatHistory`),
the global session directory (`ChatSessions`), the enrichment coordinator,
the prompt assembler and the per-turn orchestrator (`coordinateChat` /
`handleChat`).  Stateful durable-object handlers are modelled as pure
state-passing functions; promise outcomes of external calls (vision, file
extraction, remote HTTP lookups, the generation model, storage writes) are
passed in explicitly as `Except` / `Option` values.
-/

/-- A stored chat message: `{ role, content, timestamp }` in `ChatHistory`. -/
structure Msg where
  role : String
  content : String
  timestamp : Nat
deriving DecidableEq

/-- `ChatHistory.fetch`, `POST /messages`: push the new message with the
current timestamp, then if the length exceeds 50 keep only the last 50
entries (`this.messages = this.messages.slice(-50)`), which for length
`n + 1 > 50` is `drop (n + 1 - 50)`. -/
def appendMsg (messages : List Msg) (role content : String) (now : Nat) : List Msg :=
  let messages' := messages ++ [⟨role, content, now⟩]
  if messages'.length > 50 then messages'.drop (messages'.length - 50) else messages'

/-- Build a `Msg` from a `(role, content, timestamp)` triple. -/
def mkMsg (e : String × String × Nat) : Msg :=
  ⟨e.1, e.2.1, e.2.2⟩

/-- Run a whole sequence of `POST /messages` appends against one
`ChatHistory` key, starting from the empty history. -/
def appendAll (entries : List (String × String × Nat)) : List Msg :=
  entries.foldl (fun l e => appendMsg l e.1 e.2.1 e.2.2) []

/-- A conversation summary held by the `ChatSessions` durable object:
`{ id, name, lastMessage, createdAt, updatedAt }` (a fresh session is
created with `lastMessage: ''`). -/
structure Session where
  id : String
  name : String
  lastMessage : String
  createdAt : Nat
  updatedAt : Nat
deriving DecidableEq

/-- JavaScript truthiness of a string: only the empty string is falsy. -/
def truthyS (s : String) : Bool :=
  s != ""

/-- JavaScript truthiness of an optional string field: `undefined` and the
empty string are falsy. -/
def truthyO : Option String → Bool
  | none => false
  | some s => s != ""

/-- The id a `POST /sessions` request ends up using:
`body.id || 'session-' + Math.random()...`; the generated random id is the
`fresh` parameter. -/
def resolveId (idOpt : Option String) (fresh : String) : String :=
  match idOpt with
  | some s => if s = "" then fresh else s
  | none => fresh

/-- The name a `POST /sessions` request ends up using:
`body.name || 'New Chat'`. -/
def resolveName (nameOpt : Option String) : String :=
  match nameOpt with
  | some s => if s = "" then "New Chat" else s
  | none => "New Chat"

/-- `ChatSessions.fetch`, `POST /sessions`: build the new summary and insert
it at the front (`this.sessions.unshift(newSession)`); returns the record
and the new state. -/
def createSession (sessions : List Session) (idOpt nameOpt : Option String)
    (fresh : String) (now : Nat) : Session × List Session :=
  let newSession : Session :=
    { id := resolveId idOpt fresh
      name := resolveName nameOpt
      lastMessage := ""
      createdAt := now
      updatedAt := now }
  (newSession, newSession :: sessions)

/-- The in-place mutation a `PUT /sessions` request performs on the located
summary: `if (body.name) ... ; if (body.lastMessage !== undefined) ... ;
updatedAt = Date.now()`. -/
def applyUpdate (s : Session) (nameOpt lastMessageOpt : Option String)
    (now : Nat) : Session :=
  let s1 := match nameOpt with
    | some n => if n = "" then s else { s with name := n }
    | none => s
  let s2 := match lastMessageOpt with
    | some lm => { s1 with lastMessage := lm }
    | none => s1
  { s2 with updatedAt := now }

/-- `ChatSessions.fetch`, `PUT /sessions`: locate the first summary with the
given id (`findIndex`), mutate it in place, and return it; `none` models the
404 "Session not found" response, in which case the state is untouched. -/
def updateSessions (sessions : List Session) (id : String)
    (nameOpt lastMessageOpt : Option String) (now : Nat) :
    Option Session × List Session :=
  match sessions with
  | [] => (none, [])
  | s :: rest =>
    if s.id = id then
      (some (applyUpdate s nameOpt lastMessageOpt now),
        applyUpdate s nameOpt lastMessageOpt now :: rest)
    else
      ((updateSessions rest id nameOpt lastMessageOpt now).1,
        s :: (updateSessions rest id nameOpt lastMessageOpt now).2)

/-- `ChatSessions.fetch`, `DELETE /sessions`:
`this.sessions.filter(s => s.id !== body.id)`. -/
def removeSession (sessions : List Session) (id : String) : List Session :=
  sessions.filter (fun s => s.id ≠ id)

/-- One request against the `ChatSessions` durable object. -/
inductive DirOp where
  | listOp
  | create (idOpt nameOpt : Option String) (fresh : String) (now : Nat)
  | update (id : String) (nameOpt lastMessageOpt : Option String) (now : Nat)
  | remove (id : String)
deriving DecidableEq

/-- State transition of the `ChatSessions` durable object for one request. -/
def dirStep (sessions : List Session) : DirOp → List Session
  | .listOp => sessions
  | .create idOpt nameOpt fresh now => (createSession sessions idOpt nameOpt fresh now).2
  | .update id nameOpt lastMessageOpt now => (updateSessions sessions id nameOpt lastMessageOpt now).2
  | .remove id => removeSession sessions id

/-- Run a sequence of requests from a given directory state. -/
def dirRunFrom (sessions : List Session) (ops : List DirOp) : List Session :=
  ops.foldl dirStep sessions

/-- Run a sequence of requests from the empty directory. -/
def dirRun (ops : List DirOp) : List Session :=
  dirRunFrom [] ops

/-- A request is safe for a given state when, if it is a `create`, the id it
resolves to is not already present (the code never checks this). -/
def safeOp (sessions : List Session) : DirOp → Bool
  | .create idOpt _ fresh _ => decide (resolveId idOpt fresh ∉ sessions.map Session.id)
  | _ => true

/-- A request sequence is safe when every `create` resolves to an id that is
not already present at the moment it is applied. -/
def safeRun (sessions : List Session) : List DirOp → Bool
  | [] => true
  | op :: ops => safeOp sessions op && safeRun (dirStep sessions op) ops

/-- JavaScript whitespace (the characters relevant here) for the `\s` class
of the city regex and for `String.prototype.trim`. -/
def isWsChar (c : Char) : Bool :=
  c == ' ' || c == '\t' || c == '\n' || c == '\r'

/-- The `[a-zA-Z\s]` character class of the city regex. -/
def isClsChar (c : Char) : Bool :=
  ('a' ≤ c && c ≤ 'z') || ('A' ≤ c && c ≤ 'Z') || isWsChar c

/-- `l₁` is a literal prefix of `l₂`. -/
def listPrefix : List Char → List Char → Bool
  | [], _ => true
  | _ :: _, [] => false
  | a :: as, b :: bs => a == b && listPrefix as bs

/-- `needle` occurs contiguously inside `hay`
(`String.prototype.includes`). -/
def containsList (needle : List Char) : List Char → Bool
  | [] => needle.isEmpty
  | c :: rest => listPrefix needle (c :: rest) || containsList needle rest

/-- `String.prototype.includes` on the model side. -/
def jsIncludes (s needle : String) : Bool :=
  containsList needle.toList s.toList

/-- `String.prototype.toLowerCase` (ASCII, which is all the intent keywords
need). -/
def jsToLower (s : String) : String :=
  String.mk (s.toList.map Char.toLower)

/-- `String.prototype.trim`: strip whitespace from both ends. -/
def jsTrim (s : String) : String :=
  String.mk (((s.toList.dropWhile isWsChar).reverse.dropWhile isWsChar).reverse)

/-- The lazy group `([a-zA-Z\s]+?)` followed by `(?:\?|$|\().)`: having
already captured `acc` (reversed, at least one character), stop as soon as
the next character is `?` or `.` or the input ends, otherwise extend the
capture by one class character, and fail on any other character. -/
def capAux (acc : List Char) : List Char → Option (List Char)
  | [] => some acc.reverse
  | c :: rest =>
    if c == '?' || c == '.' then some acc.reverse
    else if isClsChar c then capAux (c :: acc) rest
    else none

/-- Start the lazy capture: it must take at least one class character. -/
def lazyCapture : List Char → Option (List Char)
  | [] => none
  | c :: rest => if isClsChar c then capAux [c] rest else none

/-- Length of the maximal whitespace run at the head of the input (the
greedy first pass of `\s+`). -/
def wsCount : List Char → Nat
  | [] => 0
  | c :: rest => if isWsChar c then wsCount rest + 1 else 0

/-- Backtracking over the `\s+` length: try the greedy length first, then
shorter ones down to one (whitespace given back to `\s+`'s right neighbour
is legal capture material since `\s ⊆ [a-zA-Z\s]`). -/
def wsBacktrack : Nat → List Char → Option (List Char)
  | 0, _ => none
  | k + 1, cs =>
    match lazyCapture (cs.drop (k + 1)) with
    | some cap => some cap
    | none => wsBacktrack k cs

/-- Leftmost match of `/in\s+([a-zA-Z\s]+?)(?:\?|$|\.)/i` over a character
list: at each start position try a case-insensitive literal `in`, then
`\s+` with backtracking, then the lazy capture; on failure move the start
one character to the right. -/
def cityMatchAux : List Char → Option (List Char)
  | [] => none
  | c1 :: rest =>
    match (match rest with
      | c2 :: rest2 =>
        if c1.toLower == 'i' && c2.toLower == 'n' then
          wsBacktrack (wsCount rest2) rest2
        else none
      | [] => none) with
    | some cap => some cap
    | none => cityMatchAux rest

/-- `message.match(/in\s+([a-zA-Z\s]+?)(?:\?|$|\.)/i)` — the captured city
group, or `none` when the regex does not match. -/
def cityMatch (message : String) : Option String :=
  (cityMatchAux message.toList).map String.mk

/-- The weather branch condition of `getExternalInfo`:
`lowerMessage.includes('weather') || lowerMessage.includes('temperature')`. -/
def weatherIntent (message : String) : Bool :=
  jsIncludes (jsToLower message) "weather" || jsIncludes (jsToLower message) "temperature"

/-- The time branch condition of `getExternalInfo`. -/
def timeIntent (message : String) : Bool :=
  jsIncludes (jsToLower message) "time" || jsIncludes (jsToLower message) "date" ||
    jsIncludes (jsToLower message) "day"

/-- The news branch condition of `getExternalInfo`. -/
def newsIntent (message : String) : Bool :=
  jsIncludes (jsToLower message) "news" || jsIncludes (jsToLower message) "latest" ||
    jsIncludes (jsToLower message) "current"

/-- Which external lookup a turn ends up issuing. -/
inductive ExternalLookup where
  | weather (city : String)
  | time
  | news (query : String)
deriving DecidableEq

/-- The shared tail of `getExternalInfo`: the time check, then the news
check, then `null`. -/
def lookupTimeNews (message : String) : Option ExternalLookup :=
  if timeIntent message then some .time
  else if newsIntent message then some (.news message)
  else none

/-- The lookup `getExternalInfo` schedules for a message: the weather branch
runs `getWeather` only when the city regex matches — when it does not, the
branch returns nothing and control falls through to the time and news
checks. -/
def scheduledLookup (message : String) : Option ExternalLookup :=
  if weatherIntent message then
    match cityMatch message with
    | some city => some (.weather (jsTrim city))
    | none => lookupTimeNews message
  else lookupTimeNews message

/-- The external lookups issued during one turn (`getExternalInfo` makes at
most one remote call). -/
def issuedLookups (message : String) : List ExternalLookup :=
  match scheduledLookup message with
  | some l => [l]
  | none => []

/-- The first geocoding result (`geoData.results[0]`); the coordinates are
only interpolated into the forecast URL, and the numeric JSON values are
only ever interpolated into text, so they are modelled as strings. -/
structure GeoResult where
  name : String
  country : String
deriving DecidableEq

/-- The `current` block of the forecast response. -/
structure CurrentWeather where
  temperature2m : String
  relativeHumidity2m : String
  weatherCode : Nat
  windSpeed10m : String
deriving DecidableEq

/-- The `weatherCodes` lookup table with its `'Unknown'` default. -/
def weatherCodeName (code : Nat) : String :=
  if code = 0 then "Clear sky" else if code = 1 then "Mainly clear"
  else if code = 2 then "Partly cloudy" else if code = 3 then "Overcast"
  else if code = 45 then "Foggy" else if code = 51 then "Light drizzle"
  else if code = 61 then "Light rain" else if code = 63 then "Moderate rain"
  else if code = 65 then "Heavy rain" else if code = 80 then "Rain showers"
  else if code = 95 then "Thunderstorm" else "Unknown"

/-- `getWeather`: the whole body is wrapped in `try/catch`, so a failed
remote call (either fetch or its JSON decoding, modelled as `.error`)
returns the fallback text "Unable to fetch weather data" instead of
throwing; an empty geocoding result list returns a "could not find" text;
otherwise the formatted report is produced. -/
def getWeather (city : String) (geo : Except Unit (Option GeoResult))
    (wx : Except Unit CurrentWeather) : String :=
  match geo with
  | .error _ => "Unable to fetch weather data"
  | .ok none => "Could not find weather data for " ++ city
  | .ok (some g) =>
    match wx with
    | .error _ => "Unable to fetch weather data"
    | .ok current =>
      "Weather in " ++ g.name ++ ", " ++ g.country ++ ": " ++
        weatherCodeName current.weatherCode ++ ", Temperature: " ++
        current.temperature2m ++ "°C, Humidity: " ++
        current.relativeHumidity2m ++ "%, Wind: " ++
        current.windSpeed10m ++ " km/h"

/-- One entry of `data.RelatedTopics` (a missing `Text` field is the empty
string). -/
structure SearchTopic where
  text : String
deriving DecidableEq

/-- The DuckDuckGo response fields `webSearch` inspects. -/
structure SearchData where
  abstractText : String
  relatedTopics : List SearchTopic
deriving DecidableEq

/-- `webSearch`: fully wrapped in `try/catch` (failure gives "Unable to
search"); otherwise `AbstractText` wins, then the first related topic's
`Text`, then the not-found text. -/
def webSearch (query : String) (outcome : Except Unit SearchData) : String :=
  match outcome with
  | .error _ => "Unable to search"
  | .ok data =>
    if truthyS data.abstractText then "Search result: " ++ data.abstractText
    else
      match data.relatedTopics with
      | t :: _ =>
        if truthyS t.text then "Search result: " ++ t.text
        else "No information found for: " ++ query
      | [] => "No information found for: " ++ query

/-- Remote outcomes and the clock available to `getExternalInfo`. -/
structure LookupEnv where
  geoOutcome : Except Unit (Option GeoResult)
  weatherOutcome : Except Unit CurrentWeather
  searchOutcome : Except Unit SearchData
  nowUTC : String

/-- The time/news tail of `getExternalInfo`, producing the actual text. -/
def runTimeNewsValue (message : String) (env : LookupEnv) : Option String :=
  if timeIntent message then
    some ("Current date and time: " ++ env.nowUTC ++ " (UTC)")
  else if newsIntent message then some (webSearch message env.searchOutcome)
  else none

/-- `getExternalInfo(message, env, 'user-default')`: the value the external
task resolves to — the body contains no `try/catch` of its own and every
helper it awaits absorbs its failures, so the task always fulfils. -/
def runGetExternalInfo (message : String) (env : LookupEnv) : Option String :=
  if weatherIntent message then
    match cityMatch message with
    | some city => some (getWeather (jsTrim city) env.geoOutcome env.weatherOutcome)
    | none => runTimeNewsValue message env
  else runTimeNewsValue message env

/-- One `{ role, content }` entry of the generation request. -/
structure ChatMsg where
  role : String
  content : String
deriving DecidableEq

/-- The system prompt of `coordinateChat`: the fixed directive with the
current date/time interpolated, and the external context appended after a
blank line when it is truthy. -/
def systemPrompt (nowUTC externalContext : String) : String :=
  "You are a helpful AI assistant with access to file and image analysis capabilities. Current date and time: " ++
    nowUTC ++
    ".\n\nWhen users upload files or images, the content is automatically extracted and provided to you in the [FILE CONTENT] or [IMAGE ANALYSIS] sections. You CAN see and analyze this content directly. Respond based on the actual content provided, not as if you cannot access it." ++
    (if truthyS externalContext then "\n\n" ++ externalContext else "")

/-- The user-turn construction of `coordinateChat`: labelled image and file
sections first, then the raw message (labelled only when some context is
present), the analyze-instruction when only an attachment was sent, and the
generic greeting when everything is empty. -/
def buildUserMessage (message imageContext fileContext : String) : String :=
  let um1 := if truthyS imageContext then
      "[IMAGE ANALYSIS]\n" ++ imageContext ++ "\n\n" else ""
  let um2 := um1 ++ (if truthyS fileContext then
      "[FILE CONTENT]\n" ++ fileContext ++ "\n\n" else "")
  let um3 :=
    if truthyS message then
      if truthyS imageContext || truthyS fileContext then
        um2 ++ "[USER\x27S QUESTION]\n" ++ message
      else message
    else
      if truthyS imageContext || truthyS fileContext then
        um2 ++ "Please analyze the " ++
          (if truthyS imageContext then "image" else "file") ++
          " I\x27ve uploaded and provide detailed insights."
      else um2
  if truthyS um3 then um3 else "Hello! How can I help you today?"

/-- The message list sent to `env.AI.run`: the system prompt first, then
`history.slice(-10)` mapped to `{ role, content }` pairs, then the user
turn. -/
def promptMessages (nowUTC externalContext userMessage : String)
    (history : List Msg) : List ChatMsg :=
  ⟨"system", systemPrompt nowUTC externalContext⟩ ::
    ((history.drop (history.length - 10)).map fun m => (⟨m.role, m.content⟩ : ChatMsg)) ++
    [⟨"user", userMessage⟩]

/-- The per-turn inputs `coordinateChat` receives (after `handleChat`
defaulted `message` to the empty string). -/
structure CoordInput where
  message : String
  image : Option String
  fileData : Option String
  fileName : Option String

/-- The promise outcomes of the scheduled enrichment tasks as the
`Promise.all` sees them before the `.catch` wrappers run: `.error` is a
rejected task. -/
structure TaskOutcomes where
  imageOutcome : Except Unit String
  fileOutcome : Except Unit String
  externalOutcome : Except Unit (Option String)

/-- The enrichment bundle `{ imageContext, fileContext, externalContext }`. -/
structure Bundle where
  imageContext : String
  fileContext : String
  externalContext : String
deriving DecidableEq

/-- The merge step: each task's `.catch` turns a rejection into
`data: null`, and the `forEach` assigns a field only when `result.data` is
truthy, so a rejected task or a null/empty result leaves the field as the
empty string. -/
def contextOf : Option String → String
  | none => ""
  | some s => if truthyS s then s else ""

/-- Fan-out plus merge of `coordinateChat`: the image task is scheduled only
when `image` is truthy, the file task only when both `fileData` and
`fileName` are truthy, and the fields are filled from the task results. -/
def enrichmentBundle (inp : CoordInput) (t : TaskOutcomes) : Bundle :=
  { imageContext :=
      if truthyO inp.image then
        contextOf (match t.imageOutcome with | .error _ => none | .ok s => some s)
      else ""
    fileContext :=
      if truthyO inp.fileData && truthyO inp.fileName then
        contextOf (match t.fileOutcome with | .error _ => none | .ok s => some s)
      else ""
    externalContext :=
      contextOf (match t.externalOutcome with | .error _ => none | .ok v => v) }

/-- How many enrichment tasks `coordinateChat` pushes: the external task is
always pushed, because `getExternalInfo` being `async` returns a (truthy)
promise unconditionally. -/
def numTasks (inp : CoordInput) : Nat :=
  (if truthyO inp.image then 1 else 0) +
    (if truthyO inp.fileData && truthyO inp.fileName then 1 else 0) + 1

/-- Outcome of the `env.AI.run` generation call: the promise rejected with
an error message, or it fulfilled with a value whose `.response` field is
the given optional string. -/
inductive GenOutcome where
  | threw (message : String)
  | returned (response : Option String)

/-- Everything `coordinateChat` consumes besides its inputs and the fetched
history: the enrichment task outcomes, the remote lookup environment, the
generation service, the clock, and the outcomes of the two history
appends. -/
structure CoordEnv where
  imageTask : Except Unit String
  fileTask : Except Unit String
  lookupEnv : LookupEnv
  gen : List ChatMsg → GenOutcome
  nowTs : Nat
  append1 : Except String Unit
  append2 : Except String Unit

/-- The task outcomes `coordinateChat` actually observes: the external task
always fulfils with `getExternalInfo`'s value, since that function absorbs
every internal failure. -/
def coordOutcomes (inp : CoordInput) (env : CoordEnv) : TaskOutcomes :=
  ⟨env.imageTask, env.fileTask, .ok (runGetExternalInfo inp.message env.lookupEnv)⟩

/-- The exact message list this turn sends to the generation service. -/
def turnPrompt (inp : CoordInput) (log : List Msg) (env : CoordEnv) : List ChatMsg :=
  let bundle := enrichmentBundle inp (coordOutcomes inp env)
  promptMessages env.lookupEnv.nowUTC bundle.externalContext
    (buildUserMessage inp.message bundle.imageContext bundle.fileContext) log

/-- What one `coordinateChat` call produces: the reply or the propagated
error, the message log afterwards, and instrumentation counting the
enrichment tasks scheduled and the generation calls made. -/
structure CoordResult where
  response : Except String String
  log : List Msg
  enrichTasks : Nat
  genCalls : Nat

/-- `coordinateChat`: await the enrichment tasks, fetch the history, build
the prompt, call the model (throwing "Invalid response from AI" when the
response or its `.response` field is falsy), then append the composed user
turn and the reply — in that order — through the `ChatHistory` object; a
failed append (`storage.put` rejection) propagates after the in-memory
update already happened. -/
def coordinateChat (inp : CoordInput) (log : List Msg) (env : CoordEnv) : CoordResult :=
  let bundle := enrichmentBundle inp (coordOutcomes inp env)
  let userMessage := buildUserMessage inp.message bundle.imageContext bundle.fileContext
  match env.gen (turnPrompt inp log env) with
  | .threw em => ⟨.error em, log, numTasks inp, 1⟩
  | .returned none => ⟨.error "Invalid response from AI", log, numTasks inp, 1⟩
  | .returned (some aiResponse) =>
    if truthyS aiResponse then
      let log1 := appendMsg log "user" userMessage env.nowTs
      match env.append1 with
      | .error em => ⟨.error em, log1, numTasks inp, 1⟩
      | .ok _ =>
        let log2 := appendMsg log1 "assistant" aiResponse env.nowTs
        match env.append2 with
        | .error em => ⟨.error em, log2, numTasks inp, 1⟩
        | .ok _ => ⟨.ok aiResponse, log2, numTasks inp, 1⟩
    else ⟨.error "Invalid response from AI", log, numTasks inp, 1⟩

/-- The request body of `POST /api/chat`. -/
structure TurnInput where
  message : String
  sessionId : String
  image : Option String
  fileName : Option String
  fileData : Option String

/-- `handleChat`'s additional dependency: the `PUT /sessions` preview
update, called with the session id and the preview text; `.error` is a
rejected `sessionsStub.fetch` (for example a failed `storage.put` inside
the directory object), `.ok` is any resolved response including the 404
not-found one, whose status `handleChat` never inspects. -/
structure HandleEnv extends CoordEnv where
  dirUpdate : String → String → Except String Unit

/-- What one `POST /api/chat` request produces: the JSON reply or the
500-error message, the message log afterwards, and the instrumentation
counters. -/
structure TurnResult where
  response : Except String String
  log : List Msg
  enrichTasks : Nat
  genCalls : Nat

/-- `handleChat`: validate that at least one of message/image/file is
truthy (otherwise throw before any work), run `coordinateChat`, then update
the session preview to `message || 'Sent an attachment'`; the whole body
sits in one `try/catch`, so any rejection — including one from the preview
update — becomes the 500 error response. -/
def handleChat (inp : TurnInput) (log : List Msg) (env : HandleEnv) : TurnResult :=
  if !truthyS inp.message && !truthyO inp.image && !truthyO inp.fileData then
    ⟨.error "Message, image, or file is required", log, 0, 0⟩
  else
    let cr := coordinateChat ⟨inp.message, inp.image, inp.fileData, inp.fileName⟩ log
      env.toCoordEnv
    match cr.response with
    | .error em => ⟨.error em, cr.log, cr.enrichTasks, cr.genCalls⟩
    | .ok aiResponse =>
      match env.dirUpdate inp.sessionId
        (if truthyS inp.message then inp.message else "Sent an attachment") with
      | .error em => ⟨.error em, cr.log, cr.enrichTasks, cr.genCalls⟩
      | .ok _ => ⟨.ok aiResponse, cr.log, cr.enrichTasks, cr.genCalls⟩

/-- Outcomes of the generation call that `coordinateChat` treats as failure:
a rejected promise, a falsy response object, or a falsy `.response` field
(including the empty string). -/
def genFailed : GenOutcome → Bool
  | .threw _ => true
  | .returned none => true
  | .returned (some r) => !truthyS r

/-- A lookup environment in which every remote call fails. -/
def failLookupEnv : LookupEnv :=
  ⟨.error (), .error (), .error (), "NOW"⟩

/-- A turn environment whose generation call returns an object with no
usable `.response` field. -/
def genNoneEnv : CoordEnv :=
  { imageTask := .ok ""
    fileTask := .ok ""
    lookupEnv := failLookupEnv
    gen := fun _ => .returned none
    nowTs := 0
    append1 := .ok ()
    append2 := .ok () }

/-- A well-behaved environment: everything succeeds and the preview update
resolves. -/
def okHandleEnv : HandleEnv :=
  { imageTask := .ok ""
    fileTask := .ok ""
    lookupEnv := failLookupEnv
    gen := fun _ => .returned (some "REPLY")
    nowTs := 0
    append1 := .ok ()
    append2 := .ok ()
    dirUpdate := fun _ _ => .ok () }

/-- The test message of the claim. -/
def parisMsg : String := "What\x27s the weather in Paris?"

/-- A turn environment in which the weather remote calls fail. -/
def geoFailEnv : CoordEnv :=
  { imageTask := .ok ""
    fileTask := .ok ""
    lookupEnv := failLookupEnv
    gen := fun _ => .returned (some "REPLY")
    nowTs := 0
    append1 := .ok ()
    append2 := .ok () }

/-- A turn environment whose image task rejects but whose generation
succeeds. -/
def imgFailEnv : CoordEnv :=
  { imageTask := .error ()
    fileTask := .ok ""
    lookupEnv := failLookupEnv
    gen := fun _ => .returned (some "REPLY")
    nowTs := 0
    append1 := .ok ()
    append2 := .ok () }

/-- An environment identical to `okHandleEnv` except that the preview
update (`sessionsStub.fetch` with `PUT`) rejects. -/
def dirFailEnv : HandleEnv :=
  { imageTask := .ok ""
    fileTask := .ok ""
    lookupEnv := failLookupEnv
    gen := fun _ => .returned (some "REPLY")
    nowTs := 0
    append1 := .ok ()
    append2 := .ok ()
    dirUpdate := fun _ _ => .error "sessions storage failed" }

/-- C1: for every sequence of appends to one SessionLog key starting from the
empty history, the stored list is exactly the last `min n 50` appended
messages in append order (the oldest entries having been evicted first), so
in particular its length is `min n 50 ≤ 50` after each append (every prefix
of a sequence of appends being itself such a sequence). -/
theorem c1_sessionlog_rolling_window (entries : List (String × String × Nat)) :
    appendAll entries = (entries.map mkMsg).drop (entries.length - 50) ∧
    (appendAll entries).length = min entries.length 50 ∧
    (appendAll entries).length ≤ 50 := by
  induction entries using List.reverseRecOn with
  | nil => simp [appendAll]
  | append_singleton es e ih =>
    obtain ⟨h1, h2, _⟩ := ih
    have hstep : appendAll (es ++ [e]) = appendMsg (appendAll es) e.1 e.2.1 e.2.2 := by
      simp [appendAll, List.foldl_append]
    have hm : (⟨e.1, e.2.1, e.2.2⟩ : Msg) = mkMsg e := rfl
    by_cases hlen : es.length < 50
    · have hd : es.length - 50 = 0 := by omega
      have hL : appendAll es = es.map mkMsg := by rw [h1, hd]; rfl
      have hlen' : (appendAll es ++ [mkMsg e]).length ≤ 50 := by
        simp [hL]; omega
      have hres : appendAll (es ++ [e]) = es.map mkMsg ++ [mkMsg e] := by
        rw [hstep, appendMsg, hm]
        simp only [hL]
        rw [if_neg (by simp; omega)]
      refine ⟨?_, ?_, ?_⟩
      · rw [hres]
        have : (es ++ [e]).length - 50 = 0 := by simp; omega
        rw [this]
        simp
      · rw [hres]; simp; omega
      · rw [hres]; simp; omega
    · have hge : 50 ≤ es.length := by omega
      have hLlen : (appendAll es).length = 50 := by rw [h2]; omega
      have hres : appendAll (es ++ [e]) =
          (appendAll es ++ [mkMsg e]).drop 1 := by
        rw [hstep, appendMsg, hm]
        have hc : (appendAll es ++ [mkMsg e]).length > 50 := by simp [hLlen]
        rw [if_pos hc]
        have : (appendAll es ++ [mkMsg e]).length - 50 = 1 := by simp [hLlen]
        rw [this]
      refine ⟨?_, ?_, ?_⟩
      · rw [hres, h1]
        rw [List.drop_append_of_le_length (by rw [List.length_drop, List.length_map]; omega)]
        rw [List.drop_drop]
        have h50 : es.length - 50 + 1 = (es ++ [e]).length - 50 := by simp; omega
        rw [h50]
        have hle : (es ++ [e]).length - 50 ≤ (es.map mkMsg).length := by
          simp only [List.length_append, List.length_map, List.length_cons,
            List.length_nil]
          omega
        rw [List.map_append, List.drop_append_of_le_length hle]
        simp
      · rw [hres]
        simp [hLlen]
        omega
      · rw [hres]
        simp [hLlen]

/-- Updating never changes any summary's id. -/
theorem updateSessions_map_id (sessions : List Session) (id : String)
    (nameOpt lastMessageOpt : Option String) (now : Nat) :
    ((updateSessions sessions id nameOpt lastMessageOpt now).2).map Session.id
      = sessions.map Session.id := by
  induction sessions with
  | nil => rfl
  | cons s rest ih =>
    by_cases h : s.id = id
    · simp only [updateSessions, if_pos h, List.map_cons]
      have : (applyUpdate s nameOpt lastMessageOpt now).id = s.id := by
        unfold applyUpdate
        cases nameOpt with
        | none => cases lastMessageOpt <;> rfl
        | some n =>
          by_cases hn : n = "" <;> cases lastMessageOpt <;> simp [hn]
      rw [this]
    · simp only [updateSessions, if_neg h, List.map_cons, ih]

/-- A single safe step preserves distinctness of the ids. -/
theorem dirStep_nodup (sessions : List Session) (op : DirOp)
    (hnd : (sessions.map Session.id).Nodup)
    (hsafe : safeOp sessions op = true) :
    ((dirStep sessions op).map Session.id).Nodup := by
  cases op with
  | listOp => exact hnd
  | create idOpt nameOpt fresh now =>
    simp only [safeOp, decide_eq_true_eq] at hsafe
    simp only [dirStep, createSession, List.map_cons, List.nodup_cons]
    exact ⟨hsafe, hnd⟩
  | update id nameOpt lastMessageOpt now =>
    simpa only [dirStep, updateSessions_map_id] using hnd
  | remove id =>
    exact ((List.filter_sublist sessions).map Session.id).nodup hnd

/-- C8, amended: a run of directory requests keeps the ids distinct provided
every `create` resolves to an id not already present when it is applied. -/
theorem c8_unique_ids_aux (ops : List DirOp) :
    ∀ sessions : List Session, (sessions.map Session.id).Nodup →
      safeRun sessions ops = true →
      ((dirRunFrom sessions ops).map Session.id).Nodup := by
  induction ops with
  | nil => intro sessions hnd _; exact hnd
  | cons op ops ih =>
    intro sessions hnd hsafe
    rw [safeRun, Bool.and_eq_true] at hsafe
    exact ih (dirStep sessions op) (dirStep_nodup sessions op hnd hsafe.1) hsafe.2

/-- C8 counterexample: two `create` requests carrying the same caller-supplied
id leave the directory with two summaries whose ids coincide, refuting the
claim that the summaries sequence never contains two equal ids. -/
theorem c8_counterexample :
    ¬ ((dirRun [DirOp.create (some "a") none "session-f1" 0,
                DirOp.create (some "a") none "session-f2" 1]).map Session.id).Nodup := by
  decide

/-- C8, amended: for every sequence of directory operations starting from the
empty directory in which each `create` resolves to an id not already present
when it is applied (the code does not deduplicate caller-supplied ids), the
resulting summaries sequence never contains two summaries with the same id;
`list`, `update` and `remove` always preserve distinctness. -/
theorem c8_unique_ids (ops : List DirOp) (hsafe : safeRun [] ops = true) :
    ((dirRun ops).map Session.id).Nodup :=
  c8_unique_ids_aux ops [] List.nodup_nil hsafe

/-- Witness for `c8_unique_ids` at a concrete safe request sequence. -/
theorem c8_unique_ids_witness :
    safeRun [] [DirOp.create (some "a") none "session-f1" 0,
                DirOp.create (some "b") none "session-f2" 1,
                DirOp.update "a" (some "X") none 2,
                DirOp.remove "b"] = true ∧
    ((dirRun [DirOp.create (some "a") none "session-f1" 0,
              DirOp.create (some "b") none "session-f2" 1,
              DirOp.update "a" (some "X") none 2,
              DirOp.remove "b"]).map Session.id).Nodup :=
  ⟨by decide, c8_unique_ids _ (by decide)⟩

/-- Updating an id that occurs in none of the leading summaries skips all of
them and recurses into the tail. -/
theorem updateSessions_append (pre : List Session) (rest : List Session)
    (id : String) (nameOpt lastMessageOpt : Option String) (now : Nat)
    (h : ∀ t ∈ pre, t.id ≠ id) :
    updateSessions (pre ++ rest) id nameOpt lastMessageOpt now =
      ((updateSessions rest id nameOpt lastMessageOpt now).1,
        pre ++ (updateSessions rest id nameOpt lastMessageOpt now).2) := by
  induction pre with
  | nil => simp
  | cons t pre ih =>
    have ht : t.id ≠ id := h t (by simp)
    have ih' := ih (fun u hu => h u (by simp [hu]))
    show updateSessions (t :: (pre ++ rest)) id nameOpt lastMessageOpt now = _
    rw [updateSessions, if_neg ht, ih']
    rfl

/-- Updating an id that occurs nowhere returns the 404 result and leaves the
directory unchanged. -/
theorem updateSessions_not_found (sessions : List Session) (id : String)
    (nameOpt lastMessageOpt : Option String) (now : Nat)
    (h : ∀ t ∈ sessions, t.id ≠ id) :
    updateSessions sessions id nameOpt lastMessageOpt now = (none, sessions) := by
  induction sessions with
  | nil => rfl
  | cons t rest ih =>
    have ht : t.id ≠ id := h t (by simp)
    have ih' := ih (fun u hu => h u (by simp [hu]))
    simp only [updateSessions, if_neg ht, ih']

/-- C9: `update(id, {name := "X"})` on a directory where the summary with
that id sits between `pre` and `post` (its id not occurring in `pre`)
replaces exactly that summary by a copy whose `name` is `"X"` and whose
`updatedAt` is refreshed — `id`, `lastMessage` and `createdAt` are kept,
every other summary is untouched, and its position is unchanged; for an id
that occurs nowhere the call returns the not-found result and leaves the
directory unchanged. -/
theorem c9_update_frame :
    (∀ (pre : List Session) (s : Session) (post : List Session) (now : Nat),
      (∀ t ∈ pre, t.id ≠ s.id) →
      updateSessions (pre ++ s :: post) s.id (some "X") none now =
        (some { s with name := "X", updatedAt := now },
          pre ++ { s with name := "X", updatedAt := now } :: post)) ∧
    (∀ (sessions : List Session) (id : String) (now : Nat),
      (∀ t ∈ sessions, t.id ≠ id) →
      updateSessions sessions id (some "X") none now = (none, sessions)) := by
  constructor
  · intro pre s post now h
    rw [updateSessions_append pre (s :: post) s.id (some "X") none now h]
    have hstep : updateSessions (s :: post) s.id (some "X") none now =
        (some { s with name := "X", updatedAt := now },
          { s with name := "X", updatedAt := now } :: post) := by
      rw [updateSessions, if_pos rfl]
      rfl
    rw [hstep]
  · intro sessions id now h
    exact updateSessions_not_found sessions id (some "X") none now h

/-- Witness for `c9_update_frame` at a concrete directory. -/
theorem c9_update_frame_witness :
    updateSessions ([⟨"a", "New Chat", "", 0, 0⟩] ++ ⟨"b", "Old", "p", 1, 1⟩ :: []) "b"
        (some "X") none 7 =
      (some ⟨"b", "X", "p", 1, 7⟩, [⟨"a", "New Chat", "", 0, 0⟩] ++ ⟨"b", "X", "p", 1, 7⟩ :: []) ∧
    updateSessions [⟨"a", "New Chat", "", 0, 0⟩] "z" (some "X") none 7 =
      (none, [⟨"a", "New Chat", "", 0, 0⟩]) :=
  ⟨c9_update_frame.1 [⟨"a", "New Chat", "", 0, 0⟩] ⟨"b", "Old", "p", 1, 1⟩ [] 7 (by decide),
   c9_update_frame.2 [⟨"a", "New Chat", "", 0, 0⟩] "z" 7 (by decide)⟩

/-- C10: updating an existing summary with `name := ""` succeeds (the
truthiness check `if (body.name)` skips a falsy name) leaving `name`
unchanged while `updatedAt` is still refreshed; by contrast supplying
`lastMessage := ""` overwrites the preview, because that field is guarded
only by `!== undefined`. -/
theorem c10_empty_name_preview :
    (∀ (pre : List Session) (s : Session) (post : List Session) (now : Nat),
      (∀ t ∈ pre, t.id ≠ s.id) →
      updateSessions (pre ++ s :: post) s.id (some "") none now =
        (some { s with updatedAt := now },
          pre ++ { s with updatedAt := now } :: post)) ∧
    (∀ (pre : List Session) (s : Session) (post : List Session) (now : Nat),
      (∀ t ∈ pre, t.id ≠ s.id) →
      updateSessions (pre ++ s :: post) s.id none (some "") now =
        (some { s with lastMessage := "", updatedAt := now },
          pre ++ { s with lastMessage := "", updatedAt := now } :: post)) := by
  constructor
  · intro pre s post now h
    rw [updateSessions_append pre (s :: post) s.id (some "") none now h]
    have hstep : updateSessions (s :: post) s.id (some "") none now =
        (some { s with updatedAt := now }, { s with updatedAt := now } :: post) := by
      rw [updateSessions, if_pos rfl]
      rfl
    rw [hstep]
  · intro pre s post now h
    rw [updateSessions_append pre (s :: post) s.id none (some "") now h]
    have hstep : updateSessions (s :: post) s.id none (some "") now =
        (some { s with lastMessage := "", updatedAt := now },
          { s with lastMessage := "", updatedAt := now } :: post) := by
      rw [updateSessions, if_pos rfl]
      rfl
    rw [hstep]

/-- Witness for `c10_empty_name_preview` at a concrete directory. -/
theorem c10_empty_name_preview_witness :
    updateSessions ([] ++ (⟨"a", "My Chat", "old preview", 3, 4⟩ : Session) :: []) "a"
        (some "") none 9 =
      (some ⟨"a", "My Chat", "old preview", 3, 9⟩, [] ++ (⟨"a", "My Chat", "old preview", 3, 9⟩ : Session) :: []) ∧
    updateSessions ([] ++ (⟨"a", "My Chat", "old preview", 3, 4⟩ : Session) :: []) "a"
        none (some "") 9 =
      (some ⟨"a", "My Chat", "", 3, 9⟩, [] ++ (⟨"a", "My Chat", "", 3, 9⟩ : Session) :: []) :=
  ⟨c10_empty_name_preview.1 [] ⟨"a", "My Chat", "old preview", 3, 4⟩ [] 9 (by decide),
   c10_empty_name_preview.2 [] ⟨"a", "My Chat", "old preview", 3, 4⟩ [] 9 (by decide)⟩

/-- C5 counterexample: for "What\x27s the weather today" the weather intent is
the first matching intent (the message contains "weather"), yet the lookup
scheduled is the time lookup — the weather branch finds no `in <city>`
pattern and control falls through to the time check, refuting the claim that
the scheduled lookup is always the first matching intent in the priority
order. -/
theorem c5_counterexample :
    weatherIntent "What\x27s the weather today" = true ∧
    scheduledLookup "What\x27s the weather today" = some ExternalLookup.time := by
  constructor
  · decide
  · decide

/-- C5, amended: at most one external lookup runs per turn, and the lookup
scheduled is determined by checking weather/temperature first, then
time/date/day, then news/latest/current (case-insensitive substring
checks) — except that the weather intent only schedules a lookup when the
`in <city>` regex matches; otherwise the weather intent is skipped and the
lower-priority checks still apply. -/
theorem c5_lookup_priority (m : String) :
    (issuedLookups m).length ≤ 1 ∧
    (∀ c, weatherIntent m = true → cityMatch m = some c →
      scheduledLookup m = some (.weather (jsTrim c))) ∧
    (weatherIntent m = false ∨ cityMatch m = none →
      timeIntent m = true → scheduledLookup m = some .time) ∧
    (weatherIntent m = false ∨ cityMatch m = none →
      timeIntent m = false → newsIntent m = true →
      scheduledLookup m = some (.news m)) ∧
    (weatherIntent m = false ∨ cityMatch m = none →
      timeIntent m = false → newsIntent m = false → scheduledLookup m = none) := by
  refine ⟨?_, ?_, ?_, ?_, ?_⟩
  · cases h : scheduledLookup m <;> simp [issuedLookups, h]
  · intro c hw hc
    simp [scheduledLookup, hw, hc]
  · rintro (hw | hc) ht
    · simp [scheduledLookup, hw, lookupTimeNews, ht]
    · by_cases hw : weatherIntent m <;>
        simp [scheduledLookup, hw, hc, lookupTimeNews, ht]
  · rintro (hw | hc) ht hn
    · simp [scheduledLookup, hw, lookupTimeNews, ht, hn]
    · by_cases hw : weatherIntent m <;>
        simp [scheduledLookup, hw, hc, lookupTimeNews, ht, hn]
  · rintro (hw | hc) ht hn
    · simp [scheduledLookup, hw, lookupTimeNews, ht, hn]
    · by_cases hw : weatherIntent m <;>
        simp [scheduledLookup, hw, hc, lookupTimeNews, ht, hn]

/-- Witness for `c5_lookup_priority` at concrete messages covering the four
outcomes. -/
theorem c5_lookup_priority_witness :
    scheduledLookup "What\x27s the weather in Paris?" = some (.weather "Paris") ∧
    scheduledLookup "what time is it" = some .time ∧
    scheduledLookup "latest news" = some (.news "latest news") ∧
    scheduledLookup "hello there" = none := by
  refine ⟨?_, ?_, ?_, ?_⟩
  · have h := (c5_lookup_priority "What\x27s the weather in Paris?").2.1 "Paris"
      (by decide) (by decide)
    have ht : jsTrim "Paris" = "Paris" := by decide
    rw [ht] at h
    exact h
  · exact (c5_lookup_priority "what time is it").2.2.1 (Or.inl (by decide)) (by decide)
  · exact (c5_lookup_priority "latest news").2.2.2.1 (Or.inl (by decide)) (by decide)
      (by decide)
  · exact (c5_lookup_priority "hello there").2.2.2.2 (Or.inl (by decide)) (by decide)
      (by decide)

/-- The value the external task resolves to is fully determined by the
scheduled lookup. -/
theorem runGetExternalInfo_eq_scheduled (m : String) (env : LookupEnv) :
    runGetExternalInfo m env =
      match scheduledLookup m with
      | none => none
      | some (.weather c) => some (getWeather c env.geoOutcome env.weatherOutcome)
      | some .time => some ("Current date and time: " ++ env.nowUTC ++ " (UTC)")
      | some (.news q) => some (webSearch q env.searchOutcome) := by
  by_cases hw : weatherIntent m <;> by_cases ht : timeIntent m <;>
    by_cases hn : newsIntent m <;> cases hc : cityMatch m <;>
      simp [runGetExternalInfo, scheduledLookup, runTimeNewsValue,
        lookupTimeNews, hw, ht, hn, hc]

/-- C6: for every turn the generation request is the system message first,
then the most recent `min (length history) 10` history messages — a suffix
of the history, in original order — then the current user turn last, so its
length is `2 + min (length history) 10 ≤ 12`; and concretely, with empty
enrichment, a 3-message history and new user message "hi" it is exactly the
5 messages system, the 3 history entries in order, and user "hi". -/
theorem c6_prompt_assembly :
    (∀ (nowUTC externalContext userMessage : String) (history : List Msg),
      (promptMessages nowUTC externalContext userMessage history).length =
        2 + min history.length 10 ∧
      (promptMessages nowUTC externalContext userMessage history).length ≤ 12 ∧
      (promptMessages nowUTC externalContext userMessage history).head? =
        some ⟨"system", systemPrompt nowUTC externalContext⟩ ∧
      (promptMessages nowUTC externalContext userMessage history).getLast? =
        some ⟨"user", userMessage⟩ ∧
      ∃ recent : List Msg, recent <:+ history ∧
        recent.length = min history.length 10 ∧
        promptMessages nowUTC externalContext userMessage history =
          ⟨"system", systemPrompt nowUTC externalContext⟩ ::
            (recent.map fun m => (⟨m.role, m.content⟩ : ChatMsg)) ++
            [⟨"user", userMessage⟩]) ∧
    (∀ nowUTC : String,
      buildUserMessage "hi" "" "" = "hi" ∧
      promptMessages nowUTC "" (buildUserMessage "hi" "" "")
          [⟨"user", "a", 1⟩, ⟨"assistant", "b", 2⟩, ⟨"user", "c", 3⟩] =
        [⟨"system", systemPrompt nowUTC ""⟩, ⟨"user", "a"⟩, ⟨"assistant", "b"⟩,
          ⟨"user", "c"⟩, ⟨"user", "hi"⟩]) := by
  constructor
  · intro nowUTC externalContext userMessage history
    refine ⟨?_, ?_, ?_, ?_, ?_⟩
    · simp [promptMessages]
      omega
    · simp [promptMessages]
      omega
    · simp [promptMessages]
    · rw [promptMessages, List.getLast?_concat]
    · refine ⟨history.drop (history.length - 10), List.drop_suffix _ _, ?_, rfl⟩
      simp
      omega
  · intro nowUTC
    have hbu : buildUserMessage "hi" "" "" = "hi" := by decide
    exact ⟨hbu, by rw [hbu]; rfl⟩

/-- C7: a turn whose message is falsy and which carries neither image nor
file fails the validation check before any work: the response is the
validation error, the log is unchanged, no enrichment task is scheduled and
no generation call is made. -/
theorem c7_empty_input_validation (inp : TurnInput) (log : List Msg)
    (env : HandleEnv) (hm : truthyS inp.message = false)
    (hi : truthyO inp.image = false) (hf : truthyO inp.fileData = false) :
    handleChat inp log env =
      ⟨.error "Message, image, or file is required", log, 0, 0⟩ := by
  unfold handleChat
  rw [hm, hi, hf]
  rfl

/-- C2: whenever the generation call for the turn fails — it throws, its
response is falsy, or the `.response` field is falsy — `coordinateChat`
fails with a generation error and appends nothing: the history is returned
unchanged. -/
theorem c2_generation_failure_no_append (inp : CoordInput) (log : List Msg)
    (env : CoordEnv)
    (h : genFailed (env.gen (turnPrompt inp log env)) = true) :
    (coordinateChat inp log env).log = log ∧
    ∃ em, (coordinateChat inp log env).response = Except.error em := by
  cases hg : env.gen (turnPrompt inp log env) with
  | threw em =>
    exact ⟨by simp [coordinateChat, hg], em, by simp [coordinateChat, hg]⟩
  | returned r =>
    cases r with
    | none =>
      exact ⟨by simp [coordinateChat, hg], "Invalid response from AI",
        by simp [coordinateChat, hg]⟩
    | some s =>
      rw [hg] at h
      simp only [genFailed, Bool.not_eq_true'] at h
      exact ⟨by simp [coordinateChat, hg, h], "Invalid response from AI",
        by simp [coordinateChat, hg, h]⟩

/-- Witness for `c2_generation_failure_no_append` at a concrete turn. -/
theorem c2_generation_failure_witness :
    genFailed (genNoneEnv.gen
      (turnPrompt ⟨"Hello", none, none, none⟩ [] genNoneEnv)) = true ∧
    (coordinateChat ⟨"Hello", none, none, none⟩ [] genNoneEnv).log = [] ∧
    ∃ em, (coordinateChat ⟨"Hello", none, none, none⟩ [] genNoneEnv).response =
      Except.error em :=
  ⟨rfl,
    (c2_generation_failure_no_append ⟨"Hello", none, none, none⟩ [] genNoneEnv rfl).1,
    (c2_generation_failure_no_append ⟨"Hello", none, none, none⟩ [] genNoneEnv rfl).2⟩

/-- Witness for `c7_empty_input_validation` at the concrete request
`runTurn({sessionId: "s1"})`. -/
theorem c7_empty_input_validation_witness :
    truthyS "" = false ∧ truthyO none = false ∧
    handleChat ⟨"", "s1", none, none, none⟩ [] okHandleEnv =
      ⟨.error "Message, image, or file is required", [], 0, 0⟩ :=
  ⟨rfl, rfl,
    c7_empty_input_validation ⟨"", "s1", none, none, none⟩ [] okHandleEnv rfl rfl rfl⟩

/-- C3 counterexample: for "What\x27s the weather in Paris?" with no
attachments exactly the weather lookup is issued, but when its remote call
fails `getWeather`'s own `catch` converts the failure into the fallback text
"Unable to fetch weather data", which is truthy and is therefore merged into
the bundle — the `externalContext` field is *not* empty, refuting the claim
that a sub-task whose remote call failed leaves its bundle field empty. -/
theorem c3_counterexample :
    scheduledLookup parisMsg = some (.weather "Paris") ∧
    (enrichmentBundle ⟨parisMsg, none, none, none⟩
        (coordOutcomes ⟨parisMsg, none, none, none⟩ geoFailEnv)).externalContext =
      "Unable to fetch weather data" := by
  exact ⟨by decide, by decide⟩

/-- C3, amended: an enrichment sub-task whose promise *rejects* leaves its
bundle field empty rather than failing the turn (the per-task `catch`
downgrades it to `data: null`, which the merge skips), and for the message
"What\x27s the weather in Paris?" with no attachments exactly one external
lookup — the weather lookup for "Paris" — is issued; however a *failed
remote call* inside a lookup helper is absorbed by that helper's own `catch`
into a human-readable fallback string that is placed (non-empty) into the
bundle field, and the external task itself never rejects. A rejected
sub-task does not fail the turn: the reply is still produced. -/
theorem c3_enrichment_failure_isolation :
    (∀ (inp : CoordInput) (t : TaskOutcomes), t.imageOutcome = .error () →
      (enrichmentBundle inp t).imageContext = "") ∧
    (∀ (inp : CoordInput) (t : TaskOutcomes), t.fileOutcome = .error () →
      (enrichmentBundle inp t).fileContext = "") ∧
    (∀ (inp : CoordInput) (t : TaskOutcomes), t.externalOutcome = .error () →
      (enrichmentBundle inp t).externalContext = "") ∧
    scheduledLookup parisMsg = some (.weather "Paris") ∧
    (∀ (log : List Msg) (env : CoordEnv) (aiR : String),
      env.imageTask = .error () →
      env.gen (turnPrompt ⟨parisMsg, some "img", none, none⟩ log env) =
        .returned (some aiR) →
      truthyS aiR = true → env.append1 = .ok () → env.append2 = .ok () →
      (enrichmentBundle ⟨parisMsg, some "img", none, none⟩
        (coordOutcomes ⟨parisMsg, some "img", none, none⟩ env)).imageContext = "" ∧
      (coordinateChat ⟨parisMsg, some "img", none, none⟩ log env).response =
        .ok aiR) := by
  refine ⟨?_, ?_, ?_, by decide, ?_⟩
  · intro inp t h
    by_cases hi : truthyO inp.image <;> simp [enrichmentBundle, h, hi, contextOf]
  · intro inp t h
    by_cases hf : truthyO inp.fileData && truthyO inp.fileName <;>
      simp [enrichmentBundle, h, hf, contextOf]
  · intro inp t h
    simp [enrichmentBundle, h, contextOf]
  · intro log env aiR himg hgen htr ha1 ha2
    constructor
    · simp [enrichmentBundle, coordOutcomes, himg, contextOf]
    · simp [coordinateChat, hgen, htr, ha1, ha2]

/-- Witness for `c3_enrichment_failure_isolation` at concrete outcomes. -/
theorem c3_enrichment_failure_witness :
    (enrichmentBundle ⟨parisMsg, some "img", none, none⟩
      ⟨.error (), .ok "", .ok none⟩).imageContext = "" ∧
    (enrichmentBundle ⟨parisMsg, none, some "f", some "a.txt"⟩
      ⟨.ok "", .error (), .ok none⟩).fileContext = "" ∧
    (enrichmentBundle ⟨parisMsg, none, none, none⟩
      ⟨.ok "", .ok "", .error ()⟩).externalContext = "" ∧
    (coordinateChat ⟨parisMsg, some "img", none, none⟩ [] imgFailEnv).response =
      .ok "REPLY" :=
  ⟨c3_enrichment_failure_isolation.1 ⟨parisMsg, some "img", none, none⟩
      ⟨.error (), .ok "", .ok none⟩ rfl,
    c3_enrichment_failure_isolation.2.1 ⟨parisMsg, none, some "f", some "a.txt"⟩
      ⟨.ok "", .error (), .ok none⟩ rfl,
    c3_enrichment_failure_isolation.2.2.1 ⟨parisMsg, none, none, none⟩
      ⟨.ok "", .ok "", .error ()⟩ rfl,
    (c3_enrichment_failure_isolation.2.2.2.2 [] imgFailEnv "REPLY" rfl rfl rfl rfl rfl).2⟩

/-- C4 counterexample: at a concrete turn whose generation succeeded and
whose two SessionLog appends succeeded (the log holds the user turn and the
reply), a rejecting SessionDirectory preview update makes `handleChat`
return the 500 error instead of the reply — the single `try/catch` around
the whole handler swallows the reply, refuting the claim that such a
failure does not prevent the caller from receiving it. -/
theorem c4_counterexample :
    (coordinateChat ⟨"Hello", none, none, none⟩ [] dirFailEnv.toCoordEnv).response =
      .ok "REPLY" ∧
    (handleChat ⟨"Hello", "s1", none, none, none⟩ [] dirFailEnv).log =
      [⟨"user", "Hello", 0⟩, ⟨"assistant", "REPLY", 0⟩] ∧
    (handleChat ⟨"Hello", "s1", none, none, none⟩ [] dirFailEnv).response =
      .error "sessions storage failed" ∧
    (handleChat ⟨"Hello", "s1", none, none, none⟩ [] dirFailEnv).response ≠
      .ok "REPLY" := by
  refine ⟨rfl, rfl, rfl, ?_⟩
  intro h
  have h' : Except.error "sessions storage failed" = (Except.ok "REPLY" : Except String String) := h
  exact Except.noConfusion h'

/-- C4, amended: for every turn that passes validation (any mix of message,
image and file), after a successful generation (and successful appends) the
caller receives the reply exactly when the preview update call — invoked
with `message || 'Sent an attachment'` — *resolves*, including when it
resolves to the 404 not-found response, whose status `handleChat` never
checks; but when the preview update *rejects* (for example the directory's
`storage.put` fails), the single `try/catch` of `handleChat` turns the
whole turn into an error response even though the reply was generated and
both messages were appended (the log is kept either way). -/
theorem c4_preview_update_failure (inp : TurnInput) (log : List Msg)
    (env : HandleEnv) (aiR : String)
    (hv : (!truthyS inp.message && !truthyO inp.image && !truthyO inp.fileData)
      = false)
    (hc : (coordinateChat ⟨inp.message, inp.image, inp.fileData, inp.fileName⟩
      log env.toCoordEnv).response = .ok aiR) :
    (env.dirUpdate inp.sessionId
        (if truthyS inp.message then inp.message else "Sent an attachment") =
        .ok () →
      (handleChat inp log env).response = .ok aiR) ∧
    (∀ em, env.dirUpdate inp.sessionId
        (if truthyS inp.message then inp.message else "Sent an attachment") =
        .error em →
      (handleChat inp log env).response = .error em) ∧
    (handleChat inp log env).log =
      (coordinateChat ⟨inp.message, inp.image, inp.fileData, inp.fileName⟩
        log env.toCoordEnv).log := by
  refine ⟨?_, ?_, ?_⟩
  · intro hd
    unfold handleChat
    rw [hv]
    simp only [Bool.false_eq_true, if_false, hc, hd]
  · intro em hd
    unfold handleChat
    rw [hv]
    simp only [Bool.false_eq_true, if_false, hc, hd]
  · unfold handleChat
    rw [hv]
    simp only [Bool.false_eq_true, if_false, hc]
    cases hd : env.dirUpdate inp.sessionId
        (if truthyS inp.message then inp.message else "Sent an attachment") <;>
      simp [hd]

/-- Witness for `c4_preview_update_failure`: with a resolving update the
caller gets the reply and with a rejecting update the caller gets that
error, both for a message-only turn and for an attachment-only turn (empty
message, image present, preview "Sent an attachment"). -/
theorem c4_preview_update_witness :
    (handleChat ⟨"Hello", "s1", none, none, none⟩ [] okHandleEnv).response =
      .ok "REPLY" ∧
    (handleChat ⟨"Hello", "s1", none, none, none⟩ [] dirFailEnv).response =
      .error "sessions storage failed" ∧
    (handleChat ⟨"", "s1", some "img", none, none⟩ [] okHandleEnv).response =
      .ok "REPLY" ∧
    (handleChat ⟨"", "s1", some "img", none, none⟩ [] dirFailEnv).response =
      .error "sessions storage failed" :=
  ⟨(c4_preview_update_failure ⟨"Hello", "s1", none, none, none⟩ [] okHandleEnv
      "REPLY" rfl rfl).1 rfl,
    (c4_preview_update_failure ⟨"Hello", "s1", none, none, none⟩ [] dirFailEnv
      "REPLY" rfl rfl).2.1 "sessions storage failed" rfl,
    (c4_preview_update_failure ⟨"", "s1", some "img", none, none⟩ [] okHandleEnv
      "REPLY" rfl rfl).1 rfl,
    (c4_preview_update_failure ⟨"", "s1", some "img", none, none⟩ [] dirFailEnv
      "REPLY" rfl rfl).2.1 "sessions storage failed" rfl⟩
